import Mathlib

/-!
Shallow embedding of the `find-my-daycare` application core
(`src/app.py`, `src/utils/age_mapper.py`, `src/utils/travel_time.py`)
and proofs about it.

Conventions of the embedding:
* Python `float` values are modelled as rationals (`ℚ`); Python `int` as `ℤ`.
* Python exceptions are modelled with `Except PyExc`; a `try/except` block
  that catches a set of exception classes inspects the `PyExc` value.
* `json.loads` output is modelled by the `Json` inductive; a string that
  fails to parse is modelled as `none : Option Json` (a `JSONDecodeError`).
* Pandas `NaN` cells are modelled as `none : Option ℤ` / `none : Option String`.
-/

/-- The Python exception classes that appear in the embedded code paths. -/
inductive PyExc where
  | keyError
  | typeError
  | valueError
  | indexError
deriving DecidableEq

/-- A JSON value, the result of a successful `json.loads`. Python dicts are
modelled as association lists (insertion ordered, keys unique in practice). -/
inductive Json where
  | null
  | bool (b : Bool)
  | num (q : ℚ)
  | str (s : String)
  | arr (xs : List Json)
  | obj (kvs : List (String × Json))

/-- Both-ends whitespace removal on a character list. -/
def trimChars (cs : List Char) : List Char :=
  ((cs.dropWhile Char.isWhitespace).reverse.dropWhile Char.isWhitespace).reverse

/-- Python `str.strip()` (both-ends whitespace removal). -/
def pyStrip (s : String) : String := String.mk (trimChars s.toList)

/-- Helper for `pySplitWs`: accumulate the current word (reversed). -/
def wordsAux : List Char → List Char → List (List Char)
  | [], acc => if acc.isEmpty then [] else [acc.reverse]
  | c :: rest, acc =>
    if Char.isWhitespace c then
      if acc.isEmpty then wordsAux rest [] else acc.reverse :: wordsAux rest []
    else wordsAux rest (c :: acc)

/-- Python `str.split()` with no argument: split on whitespace runs,
discarding empty pieces. -/
def pySplitWs (s : String) : List String :=
  (wordsAux s.toList []).map String.mk

/-- Does `pre` lead the character list `l`? -/
def leadsWith : List Char → List Char → Bool
  | [], _ => true
  | _ :: _, [] => false
  | a :: pre, b :: l => a == b && leadsWith pre l

/-- Helper for `pySplit`: fuel-driven scan (the fuel starts at the hay's
length, which suffices because each step consumes at least one character);
`acc` holds the current piece reversed. -/
def splitGo (sep : List Char) : ℕ → List Char → List Char → List (List Char)
  | _, [], acc => [acc.reverse]
  | 0, l, acc => [acc.reverse ++ l]
  | fuel + 1, l@(c :: rest), acc =>
    if sep.isEmpty = false && leadsWith sep l then
      acc.reverse :: splitGo sep fuel (l.drop sep.length) []
    else
      splitGo sep fuel rest (c :: acc)

/-- Python `s.split(sep)` for a nonempty separator: split on each
left-to-right, non-overlapping occurrence of `sep`. -/
def pySplit (s sep : String) : List String :=
  (splitGo sep.toList s.toList.length s.toList []).map String.mk

/-- Python `int(s)` on a string: optional surrounding whitespace, optional
sign, then one or more decimal digits; anything else raises `ValueError`
(modelled as `none`). Underscore digit-grouping is not modelled. -/
def pyInt (s : String) : Option ℤ :=
  let cs := trimChars s.toList
  let signAndDigits : ℤ × List Char :=
    match cs with
    | '+' :: rest => (1, rest)
    | '-' :: rest => (-1, rest)
    | _ => (1, cs)
  if signAndDigits.2 ≠ [] ∧ signAndDigits.2.all Char.isDigit then
    some (signAndDigits.1 *
      (signAndDigits.2.foldl (fun acc c => acc * 10 + (c.toNat - '0'.toNat)) (0 : ℕ) : ℕ))
  else none

/-- Python's banker's rounding of a (here: rational) number to an integer:
round half to even, as `round()` does. -/
def pyRound (q : ℚ) : ℤ :=
  let f : ℤ := ⌊q⌋
  let r : ℚ := q - f
  if r < 1/2 then f
  else if 1/2 < r then f + 1
  else if Even f then f else f + 1

/-- Python `round(x, 2)`: round to two decimal places, half to even. -/
def roundTo2 (q : ℚ) : ℚ := (pyRound (q * 100) : ℚ) / 100

/- ----------------------------------------------------------------
src/utils/age_mapper.py
---------------------------------------------------------------- -/

/-- One value of the `AGE_GROUPS` dict in `src/utils/age_mapper.py`. -/
structure GroupInfo where
  column : String
  label : String
  min_months : ℤ
  max_months : Option ℤ
deriving DecidableEq

/-- The infant group, `AGE_GROUPS["infant"]`. -/
def infantGroup : GroupInfo :=
  ⟨"IGSPACE", "Infant (0-18 months)", 0, some 18⟩

/-- The `AGE_GROUPS` dict of `src/utils/age_mapper.py` (Python dicts preserve
insertion order, so a key-value list is a faithful model). -/
def AGE_GROUPS : List (String × GroupInfo) :=
  [ ("infant", infantGroup),
    ("toddler", ⟨"TGSPACE", "Toddler (18-30 months)", 18, some 30⟩),
    ("preschool", ⟨"PGSPACE", "Preschool (30 months - 4 years)", 30, some 48⟩),
    ("kindergarten", ⟨"KGSPACE", "Kindergarten (4-5 years)", 48, some 72⟩),
    ("school_age", ⟨"SGSPACE", "School Age (6+ years)", 72, none⟩) ]

/-- The per-group test made by the loop in `get_age_group`: when
`max_months` is `None` the group matches iff `age_months >= min_months`,
otherwise iff `min_months <= age_months < max_months`. -/
def groupMatches (age_months : ℤ) (g : GroupInfo) : Bool :=
  match g.max_months with
  | none => decide (g.min_months ≤ age_months)
  | some mx => decide (g.min_months ≤ age_months ∧ age_months < mx)

/-- `get_age_group` of `src/utils/age_mapper.py`, as a function of the
already-computed age in months (`calculate_age_in_months` wraps calendar
`relativedelta` arithmetic; the claims quantify over its integer result).
Scans `AGE_GROUPS.values()` in order and returns the first matching group,
falling back to the infant group when none matches. -/
def get_age_group_months (age_months : ℤ) : GroupInfo :=
  match (AGE_GROUPS.map Prod.snd).find? (groupMatches age_months) with
  | some g => g
  | none => infantGroup

/- ----------------------------------------------------------------
Theorems
---------------------------------------------------------------- -/

/-- C1: for every integer month-count `m ≥ 0`, exactly one of the five age
brackets contains `m`, `get_age_group` (given elapsed-whole-months `m`)
returns exactly that bracket, and the loop always finds a match, so the
defensive infant fallback is unreachable for `m ≥ 0`. -/
theorem age_groups_partition (m : ℤ) (h : 0 ≤ m) :
    (AGE_GROUPS.map Prod.snd).countP (groupMatches m) = 1 ∧
    ((AGE_GROUPS.map Prod.snd).find? (groupMatches m)).isSome ∧
    ∀ g ∈ AGE_GROUPS.map Prod.snd, groupMatches m g = true →
      get_age_group_months m = g := by
  rcases lt_or_le m 18 with hA | hA
  · simp [AGE_GROUPS, infantGroup, groupMatches, get_age_group_months,
      List.countP, List.countP.go, List.find?, decide_eq_true_eq,
      decide_eq_true (show (0:ℤ) ≤ m by omega),
      decide_eq_true (show m < 18 by omega),
      decide_eq_false (show ¬ (18:ℤ) ≤ m by omega),
      decide_eq_true (show m < 30 by omega),
      decide_eq_false (show ¬ (30:ℤ) ≤ m by omega),
      decide_eq_true (show m < 48 by omega),
      decide_eq_false (show ¬ (48:ℤ) ≤ m by omega),
      decide_eq_true (show m < 72 by omega),
      decide_eq_false (show ¬ (72:ℤ) ≤ m by omega)]
  rcases lt_or_le m 30 with hB | hB
  · simp [AGE_GROUPS, infantGroup, groupMatches, get_age_group_months,
      List.countP, List.countP.go, List.find?, decide_eq_true_eq,
      decide_eq_true (show (0:ℤ) ≤ m by omega),
      decide_eq_false (show ¬ m < 18 by omega),
      decide_eq_true (show (18:ℤ) ≤ m by omega),
      decide_eq_true (show m < 30 by omega),
      decide_eq_false (show ¬ (30:ℤ) ≤ m by omega),
      decide_eq_true (show m < 48 by omega),
      decide_eq_false (show ¬ (48:ℤ) ≤ m by omega),
      decide_eq_true (show m < 72 by omega),
      decide_eq_false (show ¬ (72:ℤ) ≤ m by omega)]
  rcases lt_or_le m 48 with hC | hC
  · simp [AGE_GROUPS, infantGroup, groupMatches, get_age_group_months,
      List.countP, List.countP.go, List.find?, decide_eq_true_eq,
      decide_eq_true (show (0:ℤ) ≤ m by omega),
      decide_eq_false (show ¬ m < 18 by omega),
      decide_eq_true (show (18:ℤ) ≤ m by omega),
      decide_eq_false (show ¬ m < 30 by omega),
      decide_eq_true (show (30:ℤ) ≤ m by omega),
      decide_eq_true (show m < 48 by omega),
      decide_eq_false (show ¬ (48:ℤ) ≤ m by omega),
      decide_eq_true (show m < 72 by omega),
      decide_eq_false (show ¬ (72:ℤ) ≤ m by omega)]
  rcases lt_or_le m 72 with hD | hD
  · simp [AGE_GROUPS, infantGroup, groupMatches, get_age_group_months,
      List.countP, List.countP.go, List.find?, decide_eq_true_eq,
      decide_eq_true (show (0:ℤ) ≤ m by omega),
      decide_eq_false (show ¬ m < 18 by omega),
      decide_eq_true (show (18:ℤ) ≤ m by omega),
      decide_eq_false (show ¬ m < 30 by omega),
      decide_eq_true (show (30:ℤ) ≤ m by omega),
      decide_eq_false (show ¬ m < 48 by omega),
      decide_eq_true (show (48:ℤ) ≤ m by omega),
      decide_eq_true (show m < 72 by omega),
      decide_eq_false (show ¬ (72:ℤ) ≤ m by omega)]
  · simp [AGE_GROUPS, infantGroup, groupMatches, get_age_group_months,
      List.countP, List.countP.go, List.find?, decide_eq_true_eq,
      decide_eq_true (show (0:ℤ) ≤ m by omega),
      decide_eq_false (show ¬ m < 18 by omega),
      decide_eq_true (show (18:ℤ) ≤ m by omega),
      decide_eq_false (show ¬ m < 30 by omega),
      decide_eq_true (show (30:ℤ) ≤ m by omega),
      decide_eq_false (show ¬ m < 48 by omega),
      decide_eq_true (show (48:ℤ) ≤ m by omega),
      decide_eq_false (show ¬ m < 72 by omega),
      decide_eq_true (show (72:ℤ) ≤ m by omega)]

/-- Witness for C1 at `m = 19` (the toddler bracket). -/
theorem age_groups_partition_witness :
    (0 : ℤ) ≤ 19 ∧
    ((AGE_GROUPS.map Prod.snd).countP (groupMatches 19) = 1 ∧
     ((AGE_GROUPS.map Prod.snd).find? (groupMatches 19)).isSome ∧
     ∀ g ∈ AGE_GROUPS.map Prod.snd, groupMatches 19 g = true →
       get_age_group_months 19 = g) :=
  ⟨by decide, age_groups_partition 19 (by decide)⟩

/- ----------------------------------------------------------------
src/app.py : parse_geometry
---------------------------------------------------------------- -/

/-- Python subscription `j[k]` with a string key: dict lookup (`KeyError`
when absent); any non-dict value raises `TypeError`. -/
def jsonGetKey (j : Json) (k : String) : Except PyExc Json :=
  match j with
  | .obj kvs =>
    match kvs.lookup k with
    | some v => .ok v
    | none => .error .keyError
  | _ => .error .typeError

/-- Python 2-tuple unpacking `lon, lat = v` of a JSON value: a 2-element
list unpacks, a list of any other length raises `ValueError`; a 2-character
string or 2-key dict also unpacks (iterating characters resp. keys), other
lengths raise `ValueError`; non-iterables raise `TypeError`. -/
def pyUnpack2 : Json → Except PyExc (Json × Json)
  | .arr [a, b] => .ok (a, b)
  | .arr _ => .error .valueError
  | .str s =>
    match s.toList with
    | [c1, c2] => .ok (.str (String.mk [c1]), .str (String.mk [c2]))
    | _ => .error .valueError
  | .obj [(k1, _), (k2, _)] => .ok (.str k1, .str k2)
  | .obj _ => .error .valueError
  | _ => .error .typeError

/-- The exception classes named in `parse_geometry`'s `except` clause:
`json.JSONDecodeError`, `KeyError`, `TypeError`. (`ValueError` is absent.) -/
def caughtByParseGeometry : PyExc → Bool
  | .keyError => true
  | .typeError => true
  | _ => false

/-- Python `geom["type"] == "Point"`: only a JSON string can compare equal
to the string `"Point"`. -/
def isPointTag : Json → Bool
  | .str s => s = "Point"
  | _ => false

/-- `parse_geometry` of `src/app.py` (lines 56-65). The argument is the
outcome of `json.loads(geometry_str)` (`none` models a `JSONDecodeError`,
which the function catches). On success returns the unpacked pair swapped
to `(lat, lon)` order; caught exceptions fall through to `return None`;
any other exception (notably `ValueError` from unpacking a wrong-length
coordinates value) propagates. -/
def parse_geometry (geometry : Option Json) : Except PyExc (Option (Json × Json)) :=
  match geometry with
  | none => .ok none
  | some geom =>
    match jsonGetKey geom "type" with
    | .error e => if caughtByParseGeometry e then .ok none else .error e
    | .ok t =>
      if isPointTag t then
        match jsonGetKey geom "coordinates" with
        | .error e => if caughtByParseGeometry e then .ok none else .error e
        | .ok c =>
          match pyUnpack2 c with
          | .error e => if caughtByParseGeometry e then .ok none else .error e
          | .ok (lon, lat) => .ok (some (lat, lon))
      else .ok none

/-- A `(lat, lon)` pair encoded as a GeoJSON Point with coordinates in
`[lon, lat]` order, as in the source dataset. -/
def encodePoint (lat lon : ℚ) : Json :=
  .obj [("type", .str "Point"), ("coordinates", .arr [.num lon, .num lat])]

/-- C7: `parse_geometry` round-trips an encoded Point, but it does NOT
return `none` on every malformed input: a `"Point"` object whose
`coordinates` list has three entries raises an uncaught `ValueError`
(the `except` clause names only `JSONDecodeError`, `KeyError` and
`TypeError`), contradicting the documented soft-fail contract. -/
theorem parse_geometry_uncaught_valueError :
    parse_geometry (some (Json.obj [("type", Json.str "Point"),
        ("coordinates", Json.arr [Json.num 1, Json.num 2, Json.num 3])]))
      = Except.error PyExc.valueError ∧
    ∀ lat lon : ℚ, parse_geometry (some (encodePoint lat lon))
      = Except.ok (some (Json.num lat, Json.num lon)) := by
  exact ⟨rfl, fun lat lon => rfl⟩

/- ----------------------------------------------------------------
src/app.py : parse_walk_time
---------------------------------------------------------------- -/

/-- Helper for `occursIn`: does `n` occur in the list at any position? -/
def occursInAux (n : List Char) : List Char → Bool
  | [] => leadsWith n []
  | l@(_ :: t) => leadsWith n l || occursInAux n t

/-- Python `needle in hay` for strings: substring occurrence. -/
def occursIn (needle hay : String) : Bool :=
  occursInAux needle.toList hay.toList

/-- The `if "hour" in walk_time_str:` block of `parse_walk_time`
(lines 135-139): split on `"hour"`, convert the stripped leading part with
`int(...)` (a failure is the `ValueError` the function catches, modelled
as `none`), contribute `hours * 60` minutes, and continue with
`parts[1]` when it exists, else `""`. -/
def hourSplit (walk_time_str : String) : Option (ℤ × String) :=
  if occursIn "hour" walk_time_str then do
    let parts := pySplit walk_time_str "hour"
    let hours ← pyInt (pyStrip (parts.headD ""))
    pure (hours * 60,
      if parts.length > 1 then parts.getD 1 "" else "")
  else pure (0, walk_time_str)

/-- The `if "min" in walk_time_str:` block of `parse_walk_time`
(lines 141-145): take the part before `"min"`, strip it, take its last
whitespace-separated word (`"0"` when the stripped part is empty,
`IndexError` — caught, modelled `none` — when `split()` is empty), and
add `int(...)` of it to the running total. -/
def minAccum (total : ℤ) (walk_time_str : String) : Option ℤ :=
  if occursIn "min" walk_time_str then do
    let min_part := pyStrip ((pySplit walk_time_str "min").headD "")
    let min_num ← if min_part ≠ "" then (pySplitWs min_part).getLast? else pure "0"
    let n ← pyInt min_num
    pure (total + n)
  else pure total

/-- `parse_walk_time` of `src/app.py` (lines 128-148): `""` (falsy) and
`"N/A"` map to `None`; otherwise parse an optional hour component and an
optional minute component; caught exceptions (`ValueError`,
`AttributeError`, `IndexError`) and a non-positive total also yield
`None`. -/
def parse_walk_time (walk_time_str : String) : Option ℤ :=
  if walk_time_str = "" ∨ walk_time_str = "N/A" then none
  else
    match hourSplit walk_time_str >>= fun p => minAccum p.1 p.2 with
    | none => none
    | some total_minutes => if total_minutes > 0 then some total_minutes else none

/-- Python `parse_walk_time(row.get("walk_time"))` where the key may be
absent: `None` is falsy, so a missing value yields `None`. -/
def parse_walk_time_opt : Option String → Option ℤ
  | none => none
  | some s => parse_walk_time s

/-- C5: `parse_walk_time` maps `"15 mins"` to 15, `"1 hour 5 mins"` to 65,
`"N/A"` and `""` to `none`, and any returned value is positive — a parsed
total of 0 is reported as unknown, never as a valid duration. -/
theorem parse_walk_time_spec :
    parse_walk_time "15 mins" = some 15 ∧
    parse_walk_time "1 hour 5 mins" = some 65 ∧
    parse_walk_time "N/A" = none ∧
    parse_walk_time "" = none ∧
    ∀ (s : String) (t : ℤ), parse_walk_time s = some t → 0 < t := by
  refine ⟨by decide, by decide, by decide, by decide, ?_⟩
  intro s t h
  unfold parse_walk_time at h
  split at h
  · exact absurd h (by simp)
  · split at h
    · exact absurd h (by simp)
    · split at h
      · injection h with h
        omega
      · exact absurd h (by simp)

/-- Witness for C5's final conjunct at `"15 mins"`. -/
theorem parse_walk_time_spec_witness :
    parse_walk_time "15 mins" = some 15 ∧ (0 : ℤ) < 15 :=
  ⟨parse_walk_time_spec.1, parse_walk_time_spec.2.2.2.2 "15 mins" 15 parse_walk_time_spec.1⟩

/- ----------------------------------------------------------------
src/app.py : result records and calculate_stats
---------------------------------------------------------------- -/

/-- One result dict as built by `find_nearby_daycares` (lines 95-121).
`walk_time`/`drive_time` model the keys added later by `index()`;
`none` stands for an absent key, so that `r.get("walk_time")` is `none`
until the annotation loop runs. -/
structure Result where
  loc_id : ℤ
  name : String
  address : String
  postal_code : String
  phone : String
  distance_km : ℚ
  capacity : ℤ
  total_spaces : ℤ
  subsidy : Bool
  cwelcc : Bool
  age_group_label : String
  lat : ℚ
  lon : ℚ
  infant_spaces : ℤ
  toddler_spaces : ℤ
  preschool_spaces : ℤ
  kindergarten_spaces : ℤ
  schoolage_spaces : ℤ
  website : Option String
  google_rating : Option ℚ
  google_reviews_count : Option ℤ
  google_maps_url : Option String
  walk_time : Option String
  drive_time : Option String
deriving DecidableEq

/-- The per-result test of the walking-distance loop in `calculate_stats`
(lines 160-163): the parsed walk time is not `None` and is `<= 15`. -/
def walkCounted (r : Result) : Bool :=
  match parse_walk_time_opt r.walk_time with
  | some minutes => decide (minutes ≤ 15)
  | none => false

/-- `calculate_stats` of `src/app.py` (lines 151-182). The returned Python
dict is modelled as an association list; the empty-input early return
(`if not results: return {}`) is the empty list. -/
def calculate_stats (results : List Result) : List (String × ℤ) :=
  if results = [] then []
  else
    let total : ℤ := results.length
    let walking_distance : ℤ := results.countP walkCounted
    let cwelcc_count : ℤ := results.countP (fun r => r.cwelcc)
    let subsidy_count : ℤ := results.countP (fun r => r.subsidy)
    let total_spaces : ℤ := (results.map (fun r => r.capacity)).sum
    [ ("total", total),
      ("walking_distance", walking_distance),
      ("cwelcc_count", cwelcc_count),
      ("cwelcc_percent",
        if total > 0 then pyRound ((cwelcc_count : ℚ) / (total : ℚ) * 100) else 0),
      ("subsidy_count", subsidy_count),
      ("subsidy_percent",
        if total > 0 then pyRound ((subsidy_count : ℚ) / (total : ℚ) * 100) else 0),
      ("total_spaces", total_spaces) ]

/-- A concrete result record used to instantiate theorems. -/
def sampleResult : Result :=
  ⟨1, "A", "1 Main St", "M1M1M1", "555-0000", 1, 5, 10, false, false,
   "Infant (0-18 months)", 0, 0, 5, 0, 0, 0, 0, none, none, none, none, none, none⟩

/-- Four results of which exactly two carry the cwelcc flag. -/
def sampleResults4 : List Result :=
  [{ sampleResult with cwelcc := true },
   { sampleResult with loc_id := 2, cwelcc := true },
   { sampleResult with loc_id := 3 },
   { sampleResult with loc_id := 4 }]

/-- C6 counterexample: on an empty result list `calculate_stats` returns
the EMPTY dict `{}`, so `total` and the percentage fields are absent, not
present with value 0 as the claim states. -/
theorem calculate_stats_empty_cex :
    (calculate_stats []).lookup "total" = none ∧
    (calculate_stats []).lookup "cwelcc_percent" = none ∧
    (calculate_stats []).lookup "subsidy_percent" = none := by
  exact ⟨rfl, rfl, rfl⟩

/-- C6 (amended): on an empty result list `calculate_stats` returns the
empty record (no division-by-zero error, but also no zero-valued fields);
on a non-empty list of `n` results of which `k` carry the cwelcc flag,
`cwelcc_count = k` and `cwelcc_percent = round(k / n * 100)`. -/
theorem calculate_stats_amended :
    calculate_stats [] = [] ∧
    ∀ results : List Result, results ≠ [] →
      (calculate_stats results).lookup "total" = some (results.length : ℤ) ∧
      (calculate_stats results).lookup "cwelcc_count"
        = some (results.countP (fun r => r.cwelcc) : ℤ) ∧
      (calculate_stats results).lookup "cwelcc_percent"
        = some (pyRound (((results.countP (fun r => r.cwelcc) : ℤ) : ℚ)
            / ((results.length : ℤ) : ℚ) * 100)) := by
  refine ⟨rfl, ?_⟩
  intro results hne
  have hpos : ((results.length : ℤ) > 0) := by
    cases results with
    | nil => exact absurd rfl hne
    | cons a l => simp
  simp [calculate_stats, hne, hpos, List.lookup]

/-- Witness for C6's amended statement: 4 results, 2 flagged cwelcc, give
`cwelcc_count = 2` and `cwelcc_percent = 50`. -/
theorem calculate_stats_amended_witness :
    (sampleResults4 ≠ []) ∧
    ((calculate_stats sampleResults4).lookup "total" = some 4 ∧
     (calculate_stats sampleResults4).lookup "cwelcc_count" = some 2 ∧
     (calculate_stats sampleResults4).lookup "cwelcc_percent" = some 50) := by
  have h := calculate_stats_amended.2 sampleResults4 (by decide)
  obtain ⟨h1, h2, h3⟩ := h
  have e1 : List.countP (fun r => r.cwelcc) sampleResults4 = 2 := by decide
  have e2 : sampleResults4.length = 4 := by decide
  rw [e2] at h1
  rw [e1] at h2
  rw [e1, e2] at h3
  refine ⟨by decide, by rw [h1]; decide, by rw [h2]; decide, ?_⟩
  rw [h3]
  norm_num [pyRound]

/- ----------------------------------------------------------------
src/app.py : find_nearby_daycares
---------------------------------------------------------------- -/

/-- The fixed search radius constant of `src/app.py` (line 21). -/
def SEARCH_RADIUS_KM : ℚ := 5

/-- One row of the daycare dataframe, restricted to the columns
`find_nearby_daycares` reads. `geometry` is the `json.loads` outcome of
the row's geometry string (`none` = unparseable JSON); capacity columns
are `Option ℤ` with `none` for a pandas `NaN`; supplementary columns are
`Option` with `none` for an absent or `NaN` cell. -/
structure Row where
  geometry : Option Json
  LOC_ID : ℤ
  LOC_NAME : String
  ADDRESS : String
  PCODE : String
  PHONE : String
  TOTSPACE : ℤ
  IGSPACE : Option ℤ
  TGSPACE : Option ℤ
  PGSPACE : Option ℤ
  KGSPACE : Option ℤ
  SGSPACE : Option ℤ
  subsidy : String
  cwelcc_flag : String
  website : Option String
  google_rating : Option ℚ
  google_reviews_count : Option ℤ
  google_maps_url : Option String

/-- Pandas `row.get(capacity_column, 0)` for the five capacity columns the
age groups can select; an unknown column name yields the default `0`
(an `int`, not `NaN`). -/
def rowGet (row : Row) (column : String) : Option ℤ :=
  match column with
  | "IGSPACE" => row.IGSPACE
  | "TGSPACE" => row.TGSPACE
  | "PGSPACE" => row.PGSPACE
  | "KGSPACE" => row.KGSPACE
  | "SGSPACE" => row.SGSPACE
  | _ => some 0

/-- Using a parsed coordinate as a number (as `haversine_distance` does
with `math.radians`): JSON numbers are usable, Python booleans are ints
(`True` = 1, `False` = 0), anything else raises `TypeError`. -/
def jsonToFloat : Json → Except PyExc ℚ
  | .num q => .ok q
  | .bool b => .ok (if b then 1 else 0)
  | _ => .error .typeError

/-- The result dict literal of `find_nearby_daycares` (lines 95-121). -/
def mkResult (age_label : String) (row : Row) (daycare_lat daycare_lon : ℚ)
    (distance : ℚ) (capacity : ℤ) : Result :=
  { loc_id := row.LOC_ID
    name := row.LOC_NAME
    address := row.ADDRESS
    postal_code := row.PCODE
    phone := row.PHONE
    distance_km := roundTo2 distance
    capacity := capacity
    total_spaces := row.TOTSPACE
    subsidy := row.subsidy == "Y"
    cwelcc := row.cwelcc_flag == "Y"
    age_group_label := age_label
    lat := daycare_lat
    lon := daycare_lon
    infant_spaces := row.IGSPACE.getD 0
    toddler_spaces := row.TGSPACE.getD 0
    preschool_spaces := row.PGSPACE.getD 0
    kindergarten_spaces := row.KGSPACE.getD 0
    schoolage_spaces := row.SGSPACE.getD 0
    website := row.website
    google_rating := row.google_rating
    google_reviews_count := row.google_reviews_count
    google_maps_url := row.google_maps_url
    walk_time := none
    drive_time := none }

/-- One iteration of the row loop of `find_nearby_daycares` (lines 79-121),
parameterised by the distance function (`haversine_distance` lives in
`utils/distance.py`, outside the embedded core; every claim here holds for
an arbitrary pure distance function). `.ok none` models `continue`;
an uncaught exception from `parse_geometry` or from doing arithmetic on a
non-numeric coordinate propagates. -/
def rowStep (dist : ℚ → ℚ → ℚ → ℚ → ℚ) (user_lat user_lon : ℚ)
    (capacity_column age_label : String) (row : Row) :
    Except PyExc (Option Result) :=
  match parse_geometry row.geometry with
  | .error e => .error e
  | .ok none => .ok none
  | .ok (some (latJ, lonJ)) =>
    match jsonToFloat latJ with
    | .error e => .error e
    | .ok daycare_lat =>
      match jsonToFloat lonJ with
      | .error e => .error e
      | .ok daycare_lon =>
        let distance := dist user_lat user_lon daycare_lat daycare_lon
        if distance > SEARCH_RADIUS_KM then .ok none
        else
          match rowGet row capacity_column with
          | none => .ok none
          | some capacity =>
            if capacity ≤ 0 then .ok none
            else .ok (some (mkResult age_label row daycare_lat daycare_lon distance capacity))

/-- The row loop of `find_nearby_daycares`: first exception aborts,
qualifying rows are appended in dataset order. -/
def findLoop (dist : ℚ → ℚ → ℚ → ℚ → ℚ) (user_lat user_lon : ℚ)
    (capacity_column age_label : String) : List Row → Except PyExc (List Result)
  | [] => .ok []
  | row :: rest =>
    match rowStep dist user_lat user_lon capacity_column age_label row with
    | .error e => .error e
    | .ok none => findLoop dist user_lat user_lon capacity_column age_label rest
    | .ok (some r) =>
      match findLoop dist user_lat user_lon capacity_column age_label rest with
      | .error e => .error e
      | .ok rs => .ok (r :: rs)

/-- The sort order of `results.sort(key=lambda x: x["distance_km"])`:
ascending rounded distance. Python's `list.sort` is a stable ascending
sort; a stable sort of a list is unique, so it is modelled by Mathlib's
stable `List.insertionSort`. -/
def resultLe (a b : Result) : Prop := a.distance_km ≤ b.distance_km

instance : DecidableRel resultLe :=
  fun a b => inferInstanceAs (Decidable (a.distance_km ≤ b.distance_km))

instance : IsTotal Result resultLe := ⟨fun a b => le_total a.distance_km b.distance_km⟩

instance : IsTrans Result resultLe := ⟨fun _ _ _ => le_trans⟩

/-- `find_nearby_daycares` of `src/app.py` (lines 68-125), as a function of
the child's elapsed age in months (see `get_age_group_months`) and
parameterised by the distance function. -/
def find_nearby_daycares (dist : ℚ → ℚ → ℚ → ℚ → ℚ) (user_lat user_lon : ℚ)
    (age_months : ℤ) (rows : List Row) : Except PyExc (List Result) :=
  let age_group := get_age_group_months age_months
  match findLoop dist user_lat user_lon age_group.column age_group.label rows with
  | .error e => .error e
  | .ok results => .ok (results.insertionSort resultLe)

/-- The qualification outcome of one row: `some r` exactly when the loop
body appends `r` for this row. -/
def stepResult (dist : ℚ → ℚ → ℚ → ℚ → ℚ) (user_lat user_lon : ℚ)
    (capacity_column age_label : String) (row : Row) : Option Result :=
  match rowStep dist user_lat user_lon capacity_column age_label row with
  | .ok (some r) => some r
  | _ => none

/-- The loop of `find_nearby_daycares` collects, in dataset order, exactly
the rows whose `rowStep` yields a result. -/
theorem findLoop_ok_eq (dist : ℚ → ℚ → ℚ → ℚ → ℚ) (ulat ulon : ℚ)
    (col label : String) :
    ∀ (rows : List Row) (out : List Result),
      findLoop dist ulat ulon col label rows = .ok out →
      out = rows.filterMap (stepResult dist ulat ulon col label) := by
  intro rows
  induction rows with
  | nil =>
    intro out h
    simp only [findLoop, Except.ok.injEq] at h
    simp [h.symm]
  | cons row rest ih =>
    intro out h
    unfold findLoop at h
    cases hs : rowStep dist ulat ulon col label row with
    | error e => rw [hs] at h; exact absurd h (by simp)
    | ok o =>
      cases o with
      | none =>
        rw [hs] at h
        have hrec := ih out h
        simp [List.filterMap_cons, stepResult, hs, hrec]
      | some r =>
        rw [hs] at h
        cases hrest : findLoop dist ulat ulon col label rest with
        | error e => rw [hrest] at h; exact absurd h (by simp)
        | ok rs =>
          rw [hrest] at h
          have hout : r :: rs = out := by
            simpa using h
          have hrec := ih rs hrest
          rw [← hout]
          simp [List.filterMap_cons, stepResult, hs, hrec]

/-- C2: whenever `find_nearby_daycares` returns a result list, a result
appears in it exactly when some dataset row qualifies and produces it, and
a row qualifies exactly when (a) its geometry parses to a usable
coordinate pair, (b) the distance from the user coordinate is at most the
5.0 km radius (boundary inclusive), and (c) the capacity cell for the
selected age bracket is non-null with a positive value. -/
theorem find_nearby_daycares_membership
    (dist : ℚ → ℚ → ℚ → ℚ → ℚ) (ulat ulon : ℚ) (am : ℤ)
    (rows : List Row) (out : List Result)
    (h : find_nearby_daycares dist ulat ulon am rows = .ok out) :
    (∀ r : Result, r ∈ out ↔
      r ∈ rows.filterMap (stepResult dist ulat ulon
        (get_age_group_months am).column (get_age_group_months am).label)) ∧
    ∀ row ∈ rows,
      (stepResult dist ulat ulon (get_age_group_months am).column
          (get_age_group_months am).label row).isSome = true ↔
      (∃ (jla jlo : Json) (la lo : ℚ),
        parse_geometry row.geometry = .ok (some (jla, jlo)) ∧
        jsonToFloat jla = .ok la ∧ jsonToFloat jlo = .ok lo ∧
        dist ulat ulon la lo ≤ SEARCH_RADIUS_KM ∧
        ∃ c : ℤ, rowGet row (get_age_group_months am).column = some c ∧ 0 < c) := by
  constructor
  · simp only [find_nearby_daycares] at h
    cases hloop : findLoop dist ulat ulon (get_age_group_months am).column
        (get_age_group_months am).label rows with
    | error e => rw [hloop] at h; exact absurd h (by simp)
    | ok results =>
      rw [hloop] at h
      have hout : results.insertionSort resultLe = out := by simpa using h
      have hres := findLoop_ok_eq dist ulat ulon (get_age_group_months am).column
        (get_age_group_months am).label rows results hloop
      intro r
      rw [← hout, List.mem_insertionSort, hres]
  · intro row _
    unfold stepResult rowStep
    cases hp : parse_geometry row.geometry with
    | error e => simp [hp]
    | ok o =>
      cases o with
      | none => simp [hp]
      | some pair =>
        obtain ⟨jla, jlo⟩ := pair
        cases hla : jsonToFloat jla with
        | error e => simp [hp, hla]
        | ok la =>
          cases hlo : jsonToFloat jlo with
          | error e => simp [hp, hla, hlo]
          | ok lo =>
            by_cases hd : dist ulat ulon la lo > SEARCH_RADIUS_KM
            · simp [hp, hla, hlo, hd, not_le_of_gt hd]
            · have hd' : dist ulat ulon la lo ≤ SEARCH_RADIUS_KM := not_lt.mp hd
              cases hc : rowGet row (get_age_group_months am).column with
              | none => simp [hp, hla, hlo, hd, hc]
              | some c =>
                by_cases hcp : c ≤ 0
                · simp [hp, hla, hlo, hd, hc, hcp, hd']
                · simp only [hp, hla, hlo, hd, hc, hcp]
                  simp
                  exact ⟨jla, jlo, ⟨rfl, rfl⟩, la, hla, lo, hlo, hd', by omega⟩

/- Concrete instances. `Rat.mul`/`add`/`sub`/`inv` are `@[irreducible]` in
Batteries, which blocks kernel evaluation of concrete rational arithmetic;
for the concrete instantiations below they are made semireducible again. -/
attribute [local semireducible] Rat.mul Rat.add Rat.sub Rat.inv

/-- A stand-in distance function for concrete instantiations: the distance
is the facility's latitude. -/
def distByLat : ℚ → ℚ → ℚ → ℚ → ℚ := fun _ _ daycare_lat _ => daycare_lat

/-- A concrete dataset row at the given geometry with the given
infant-capacity cell. -/
def sampleRow (id : ℤ) (g : Option Json) (ig : Option ℤ) : Row :=
  ⟨g, id, "A", "1 Main St", "M1M1M1", "555-0000", 10, ig,
   some 0, some 0, some 0, some 0, "N", "N", none, none, none, none⟩

/-- A geometry cell holding a parsed Point at `(lat, lon)`. -/
def geomAt (lat lon : ℚ) : Option Json := some (encodePoint lat lon)

/-- Rows at distances 5.00 km (in), 5.01 km (out) and 1 km with a null
infant capacity (out). -/
def wRows : List Row :=
  [sampleRow 1 (geomAt 5 0) (some 3),
   sampleRow 2 (geomAt (Rat.divInt 501 100) 0) (some 3),
   sampleRow 3 (geomAt 1 0) none]

/-- The qualifying results of `wRows`: only the 5.00 km facility. -/
def wOut : List Result :=
  [mkResult "Infant (0-18 months)" (sampleRow 1 (geomAt 5 0) (some 3)) 5 0 5 3]

/-- Witness for C2 at `wRows`: the 5.00 km facility qualifies, the 5.01 km
one and the null-capacity one do not. -/
theorem find_nearby_daycares_membership_witness :
    find_nearby_daycares distByLat 0 0 0 wRows = .ok wOut ∧
    ((∀ r : Result, r ∈ wOut ↔
      r ∈ wRows.filterMap (stepResult distByLat 0 0
        (get_age_group_months 0).column (get_age_group_months 0).label)) ∧
    ∀ row ∈ wRows,
      (stepResult distByLat 0 0 (get_age_group_months 0).column
          (get_age_group_months 0).label row).isSome = true ↔
      (∃ (jla jlo : Json) (la lo : ℚ),
        parse_geometry row.geometry = .ok (some (jla, jlo)) ∧
        jsonToFloat jla = .ok la ∧ jsonToFloat jlo = .ok lo ∧
        distByLat 0 0 la lo ≤ SEARCH_RADIUS_KM ∧
        ∃ c : ℤ, rowGet row (get_age_group_months 0).column = some c ∧ 0 < c)) :=
  ⟨rfl, find_nearby_daycares_membership distByLat 0 0 0 wRows wOut rfl⟩

/-- C3: whenever `find_nearby_daycares` returns a result list, it is sorted
by ascending (rounded) distance, and the sort is stable: for any distance
value `d`, the results at distance `d` appear in exactly their original
dataset order (the order of the qualifying-row list). -/
theorem find_nearby_daycares_sorted_stable
    (dist : ℚ → ℚ → ℚ → ℚ → ℚ) (ulat ulon : ℚ) (am : ℤ)
    (rows : List Row) (out : List Result)
    (h : find_nearby_daycares dist ulat ulon am rows = .ok out) :
    out.Pairwise resultLe ∧
    ∀ d : ℚ, out.filter (fun r => decide (r.distance_km = d))
      = (rows.filterMap (stepResult dist ulat ulon
          (get_age_group_months am).column (get_age_group_months am).label)).filter
          (fun r => decide (r.distance_km = d)) := by
  simp only [find_nearby_daycares] at h
  cases hloop : findLoop dist ulat ulon (get_age_group_months am).column
      (get_age_group_months am).label rows with
  | error e => rw [hloop] at h; exact absurd h (by simp)
  | ok results =>
    rw [hloop] at h
    have hout : results.insertionSort resultLe = out := by simpa using h
    have hres := findLoop_ok_eq dist ulat ulon (get_age_group_months am).column
      (get_age_group_months am).label rows results hloop
    constructor
    · rw [← hout]
      exact List.sorted_insertionSort resultLe results
    · intro d
      rw [← hout, ← hres]
      have hsub : (results.filter (fun r => decide (r.distance_km = d))).Sublist results :=
        List.filter_sublist results
      have hpair : (results.filter (fun r => decide (r.distance_km = d))).Pairwise resultLe := by
        apply List.pairwise_of_forall_mem_list
        intro a ha b hb
        have hda : a.distance_km = d := by
          have := (List.mem_filter.mp ha).2
          simpa using this
        have hdb : b.distance_km = d := by
          have := (List.mem_filter.mp hb).2
          simpa using this
        unfold resultLe
        rw [hda, hdb]
      have hstab := List.sublist_insertionSort hpair hsub
      have hsub2 := hstab.filter (fun r => decide (r.distance_km = d))
      rw [List.filter_filter] at hsub2
      have hsub3 : (results.filter (fun r => decide (r.distance_km = d))).Sublist
          ((results.insertionSort resultLe).filter (fun r => decide (r.distance_km = d))) := by
        simpa using hsub2
      have hperm : List.Perm ((results.insertionSort resultLe).filter
          (fun r => decide (r.distance_km = d)))
          (results.filter (fun r => decide (r.distance_km = d))) :=
        (List.perm_insertionSort resultLe results).filter _
      exact (hsub3.eq_of_length hperm.length_eq.symm).symm

/-- Rows at distances [3.2, 1.1, 3.2, 0.5] km; rows 1 and 3 tie at 3.2. -/
def w3Rows : List Row :=
  [sampleRow 1 (geomAt (Rat.divInt 16 5) 0) (some 3),
   sampleRow 2 (geomAt (Rat.divInt 11 10) 0) (some 3),
   sampleRow 3 (geomAt (Rat.divInt 16 5) 0) (some 3),
   sampleRow 4 (geomAt (Rat.divInt 1 2) 0) (some 3)]

/-- The expected output order [0.5, 1.1, 3.2, 3.2], the tied 3.2 km rows
keeping their dataset order (row 1 before row 3). -/
def w3Out : List Result :=
  [mkResult "Infant (0-18 months)" (sampleRow 4 (geomAt (Rat.divInt 1 2) 0) (some 3))
    (Rat.divInt 1 2) 0 (Rat.divInt 1 2) 3,
   mkResult "Infant (0-18 months)" (sampleRow 2 (geomAt (Rat.divInt 11 10) 0) (some 3))
    (Rat.divInt 11 10) 0 (Rat.divInt 11 10) 3,
   mkResult "Infant (0-18 months)" (sampleRow 1 (geomAt (Rat.divInt 16 5) 0) (some 3))
    (Rat.divInt 16 5) 0 (Rat.divInt 16 5) 3,
   mkResult "Infant (0-18 months)" (sampleRow 3 (geomAt (Rat.divInt 16 5) 0) (some 3))
    (Rat.divInt 16 5) 0 (Rat.divInt 16 5) 3]

/-- Witness for C3: distances [3.2, 1.1, 3.2, 0.5] come out as
[0.5, 1.1, 3.2, 3.2] with the tied entries in dataset order. -/
theorem find_nearby_daycares_sorted_stable_witness :
    find_nearby_daycares distByLat 0 0 0 w3Rows = .ok w3Out ∧
    (w3Out.Pairwise resultLe ∧
    ∀ d : ℚ, w3Out.filter (fun r => decide (r.distance_km = d))
      = (w3Rows.filterMap (stepResult distByLat 0 0
          (get_age_group_months 0).column (get_age_group_months 0).label)).filter
          (fun r => decide (r.distance_km = d))) :=
  ⟨rfl, find_nearby_daycares_sorted_stable distByLat 0 0 0 w3Rows w3Out rfl⟩

/-- A row at unrounded distance 5.004 km (= 1251/250), whose 2-decimal
rounding is exactly 5.00 km. -/
def cexRow : Row := sampleRow 1 (geomAt (Rat.divInt 1251 250) 0) (some 3)

/-- C4 counterexample: a facility whose geometry parses, whose bracket
capacity is positive, and whose ROUNDED distance is `<= 5.0` (unrounded
5.004 km, rounding to 5.00) is nevertheless excluded: the code compares
the unrounded distance against the radius, so the claim
"qualifies exactly when `round(distance, 2) <= 5.0`" is false. -/
theorem radius_rounding_cex :
    roundTo2 (Rat.divInt 1251 250) ≤ SEARCH_RADIUS_KM ∧
    parse_geometry cexRow.geometry
      = .ok (some (Json.num (Rat.divInt 1251 250), Json.num 0)) ∧
    rowGet cexRow "IGSPACE" = some 3 ∧
    find_nearby_daycares distByLat 0 0 0 [cexRow] = .ok [] := by
  refine ⟨by decide, rfl, rfl, rfl⟩

/-- C4 (amended): the radius comparison uses the UNROUNDED distance —
a row at unrounded distance above 5.0 km is skipped even if it rounds to
5.00, and every produced result has its unrounded distance at most 5.0 km,
with the 2-decimal rounding applied only to the reported `distance_km`
field after the filter. -/
theorem radius_uses_unrounded_distance
    (dist : ℚ → ℚ → ℚ → ℚ → ℚ) (ulat ulon : ℚ) (col label : String) (row : Row)
    (jla jlo : Json) (la lo : ℚ)
    (hp : parse_geometry row.geometry = .ok (some (jla, jlo)))
    (hla : jsonToFloat jla = .ok la) (hlo : jsonToFloat jlo = .ok lo) :
    (SEARCH_RADIUS_KM < dist ulat ulon la lo →
      rowStep dist ulat ulon col label row = .ok none) ∧
    ∀ r : Result, rowStep dist ulat ulon col label row = .ok (some r) →
      dist ulat ulon la lo ≤ SEARCH_RADIUS_KM ∧
      r.distance_km = roundTo2 (dist ulat ulon la lo) := by
  constructor
  · intro hgt
    simp [rowStep, hp, hla, hlo, hgt]
  · intro r hr
    simp only [rowStep, hp, hla, hlo] at hr
    by_cases hgt : dist ulat ulon la lo > SEARCH_RADIUS_KM
    · simp [hgt] at hr
    · refine ⟨not_lt.mp hgt, ?_⟩
      simp only [hgt, if_false] at hr
      cases hc : rowGet row col with
      | none => rw [hc] at hr; simp at hr
      | some c =>
        rw [hc] at hr
        by_cases hcp : c ≤ 0
        · simp [hcp] at hr
        · simp only [hcp, if_false] at hr
          have : mkResult label row la lo (dist ulat ulon la lo) c = r := by
            simpa using hr
          rw [← this]
          rfl

/-- Witness for C4's amended statement at the 5.004 km row: the `rowStep`
filter rejects it on the unrounded distance. -/
theorem radius_uses_unrounded_distance_witness :
    ((SEARCH_RADIUS_KM < distByLat 0 0 (Rat.divInt 1251 250) 0 →
      rowStep distByLat 0 0 "IGSPACE" "Infant (0-18 months)" cexRow = .ok none) ∧
    ∀ r : Result,
      rowStep distByLat 0 0 "IGSPACE" "Infant (0-18 months)" cexRow = .ok (some r) →
      distByLat 0 0 (Rat.divInt 1251 250) 0 ≤ SEARCH_RADIUS_KM ∧
      r.distance_km = roundTo2 (distByLat 0 0 (Rat.divInt 1251 250) 0)) :=
  radius_uses_unrounded_distance distByLat 0 0 "IGSPACE" "Infant (0-18 months)" cexRow
    (Json.num (Rat.divInt 1251 250)) (Json.num 0) (Rat.divInt 1251 250) 0 rfl rfl rfl

/- ----------------------------------------------------------------
src/app.py : send_shortlist
---------------------------------------------------------------- -/

/-- Characters allowed in the local part of the email pattern
`[a-zA-Z0-9._%+-]`. -/
def emailLocalChar (c : Char) : Bool :=
  c.isAlphanum || c = '.' || c = '_' || c = '%' || c = '+' || c = '-'

/-- Characters allowed in the domain part of the email pattern
`[a-zA-Z0-9.-]`. -/
def emailDomainChar (c : Char) : Bool :=
  c.isAlphanum || c = '.' || c = '-'

/-- Full match of the domain tail `[a-zA-Z0-9.-]+\.[a-zA-Z]\x7b2,\x7d`:
some dot position `p > 0` splits it into a nonempty domain-charset prefix
and an alphabetic suffix of length at least 2. -/
def emailDomainMatch (cs : List Char) : Bool :=
  (List.range cs.length).any (fun p =>
    decide (cs.getD p ' ' = '.') && decide (0 < p) &&
    (cs.take p).all emailDomainChar &&
    decide (2 ≤ cs.length - (p + 1)) && (cs.drop (p + 1)).all Char.isAlpha)

/-- Full match of `[a-zA-Z0-9._%+-]+@[a-zA-Z0-9.-]+\.[a-zA-Z]\x7b2,\x7d`:
since no character class contains `@`, a match splits the string at its
only `@`. -/
def emailCore (cs : List Char) : Bool :=
  match cs.splitOn '@' with
  | [loc, dom] => decide (loc ≠ []) && loc.all emailLocalChar && emailDomainMatch dom
  | _ => false

/-- Python `re.match(pattern, email)` for the anchored pattern of
`src/app.py` line 297: `$` matches at the end of the string or just before
one trailing newline. -/
def emailMatch (s : String) : Bool :=
  emailCore s.toList ||
    (decide (s.toList.getLast? = some (Char.ofNat 10)) && emailCore s.toList.dropLast)

/-- The JSON body of a shortlist request, with the `data.get` defaults of
`src/app.py` lines 289-291 already applied; `email` is assumed to be a
JSON string as the client contract prescribes. -/
structure ShortlistData where
  email : String
  daycares : List Json
  searchAddress : String

/-- A Flask JSON response: body (a JSON object) and HTTP status code. -/
structure ApiResponse where
  body : List (String × Json)
  status : ℕ

/-- `send_shortlist` of `src/app.py` (lines 281-311). `data = none` models
a missing/falsy request body; `send_result` is the boolean returned by the
downstream `send_shortlist_email`. -/
def send_shortlist (send_result : Bool) (data : Option ShortlistData) : ApiResponse :=
  match data with
  | none => ⟨[("success", .bool false), ("error", .str "No data provided")], 400⟩
  | some d =>
    let email := pyStrip d.email
    if email = "" then
      ⟨[("success", .bool false), ("error", .str "Email is required")], 400⟩
    else if emailMatch email = false then
      ⟨[("success", .bool false), ("error", .str "Invalid email format")], 400⟩
    else if d.daycares.isEmpty then
      ⟨[("success", .bool false), ("error", .str "No daycares in shortlist")], 400⟩
    else if send_result then
      ⟨[("success", .bool true), ("message", .str "Email sent successfully")], 200⟩
    else
      ⟨[("success", .bool false), ("error", .str "Failed to send email. Please try again.")], 500⟩

/-- An empty string never matches the email pattern. -/
theorem emailMatch_empty : emailMatch "" = false := by decide

/-- C8: an empty daycare list is rejected with the 400 validation shape
regardless of the email and of the delivery outcome; a non-matching email
is rejected with the 400 validation shape regardless of the list; and a
failing delivery on otherwise valid input yields the distinct 500 shape.
All rejections carry `success = false` and an error message. -/
theorem send_shortlist_validation (send_result : Bool) (d : ShortlistData) :
    (d.daycares = [] →
      (send_shortlist send_result (some d)).status = 400 ∧
      (send_shortlist send_result (some d)).body.lookup "success" = some (.bool false) ∧
      ((send_shortlist send_result (some d)).body.lookup "error").isSome = true) ∧
    (emailMatch (pyStrip d.email) = false →
      (send_shortlist send_result (some d)).status = 400 ∧
      (send_shortlist send_result (some d)).body.lookup "success" = some (.bool false) ∧
      ((send_shortlist send_result (some d)).body.lookup "error").isSome = true) ∧
    (emailMatch (pyStrip d.email) = true → d.daycares ≠ [] → send_result = false →
      (send_shortlist send_result (some d)).status = 500 ∧
      (send_shortlist send_result (some d)).body.lookup "success" = some (.bool false) ∧
      ((send_shortlist send_result (some d)).body.lookup "error").isSome = true) := by
  refine ⟨?_, ?_, ?_⟩
  · intro hnil
    by_cases he : pyStrip d.email = ""
    · simp [send_shortlist, he, List.lookup]
    · by_cases hm : emailMatch (pyStrip d.email) = false
      · simp [send_shortlist, he, hm, List.lookup]
      · simp [send_shortlist, he, hm, hnil, List.lookup]
  · intro hm
    by_cases he : pyStrip d.email = ""
    · simp [send_shortlist, he, List.lookup]
    · simp [send_shortlist, he, hm, List.lookup]
  · intro hm hnil hsend
    have he : pyStrip d.email ≠ "" := by
      intro habs
      rw [habs] at hm
      exact absurd hm (by simp [emailMatch_empty])
    subst hsend
    simp [send_shortlist, he, hm, hnil, List.lookup]

/-- Witness for C8: an empty list with a valid email is rejected 400; a
malformed email with a non-empty list is rejected 400; a delivery failure
on valid input yields 500. -/
theorem send_shortlist_validation_witness :
    ((send_shortlist true (some ⟨"ok@example.com", [], "here"⟩)).status = 400 ∧
     (send_shortlist true (some ⟨"ok@example.com", [], "here"⟩)).body.lookup "success"
       = some (.bool false) ∧
     ((send_shortlist true (some ⟨"ok@example.com", [], "here"⟩)).body.lookup "error").isSome
       = true) ∧
    ((send_shortlist true (some ⟨"not-an-email", [Json.null], "here"⟩)).status = 400 ∧
     (send_shortlist true (some ⟨"not-an-email", [Json.null], "here"⟩)).body.lookup "success"
       = some (.bool false) ∧
     ((send_shortlist true (some ⟨"not-an-email", [Json.null], "here"⟩)).body.lookup
       "error").isSome = true) ∧
    ((send_shortlist false (some ⟨"ok@example.com", [Json.null], "here"⟩)).status = 500 ∧
     (send_shortlist false (some ⟨"ok@example.com", [Json.null], "here"⟩)).body.lookup "success"
       = some (.bool false) ∧
     ((send_shortlist false (some ⟨"ok@example.com", [Json.null], "here"⟩)).body.lookup
       "error").isSome = true) :=
  ⟨(send_shortlist_validation true ⟨"ok@example.com", [], "here"⟩).1 rfl,
   (send_shortlist_validation true ⟨"not-an-email", [Json.null], "here"⟩).2.1 (by decide),
   (send_shortlist_validation false ⟨"ok@example.com", [Json.null], "here"⟩).2.2
     (by decide) (List.cons_ne_nil _ _) rfl⟩

/- ----------------------------------------------------------------
src/utils/travel_time.py
---------------------------------------------------------------- -/

/-- One element of a distance-matrix response row: its status and (when
present) the duration text. The upstream response is modelled as already
parsed; a whole-call failure is the `Except` error case of the API
oracle. -/
structure DMElement where
  status : String
  durationText : String

/-- Helper for `pyBatches`: fuel-driven chunking (the fuel starts at the
list's length, which suffices whenever the chunk size is positive). -/
def chunkGo (bs : ℕ) : ℕ → List α → List (List α)
  | _, [] => []
  | 0, l => [l]
  | fuel + 1, l@(_ :: _) => l.take bs :: chunkGo bs fuel (l.drop bs)

/-- The slicing loop `for i in range(0, len(destinations), batch_size)`
with `batch = destinations[i : i + batch_size]`: consecutive chunks of at
most `bs` elements. -/
def pyBatches (bs : ℕ) (l : List α) : List (List α) := chunkGo bs l.length l

/-- The body of the batch loop in `get_travel_times_for_mode` (lines
31-46): on a successful call, one entry per response element ("N/A" for a
non-"OK" status); on any exception, "N/A" for every destination of the
batch. -/
def processBatch (api : List (ℚ × ℚ) → Except Unit (List DMElement))
    (batch : List (ℚ × ℚ)) : List String :=
  match api batch with
  | .ok elements =>
    elements.map (fun e => if e.status = "OK" then e.durationText else "N/A")
  | .error _ => batch.map (fun _ => "N/A")

/-- `get_travel_times_for_mode` of `src/utils/travel_time.py` (lines
18-48), parameterised by the API oracle (the `client.distance_matrix`
call with its mode and origin fixed): results of all batches of 25, in
order. -/
def get_travel_times_for_mode (api : List (ℚ × ℚ) → Except Unit (List DMElement))
    (destinations : List (ℚ × ℚ)) : List String :=
  ((pyBatches 25 destinations).map (processBatch api)).flatten

/-- One entry of the `get_all_travel_times` result list. -/
structure TravelTimes where
  walk : String
  transit : String
  drive : String
deriving DecidableEq

/-- `get_all_travel_times` of `src/utils/travel_time.py` (lines 51-78):
per-mode queries zipped by index; `none` models the `IndexError` raised if
some per-mode list were shorter than the destination list. -/
def get_all_travel_times (api : String → List (ℚ × ℚ) → Except Unit (List DMElement))
    (destinations : List (ℚ × ℚ)) : Option (List TravelTimes) :=
  if destinations.isEmpty then some []
  else
    let walk_times := get_travel_times_for_mode (api "walking") destinations
    let transit_times := get_travel_times_for_mode (api "transit") destinations
    let drive_times := get_travel_times_for_mode (api "driving") destinations
    (List.range destinations.length).mapM (fun i => do
      let w ← walk_times.get? i
      let t ← transit_times.get? i
      let dr ← drive_times.get? i
      pure (⟨w, t, dr⟩ : TravelTimes))

/-- Chunking with positive chunk size and enough fuel: the chunks
concatenate back to the list and each has at most `bs` elements. -/
theorem chunkGo_spec (bs : ℕ) (hbs : 0 < bs) :
    ∀ (fuel : ℕ) (l : List α), l.length ≤ fuel →
      (chunkGo bs fuel l).flatten = l ∧ ∀ b ∈ chunkGo bs fuel l, b.length ≤ bs := by
  intro fuel
  induction fuel with
  | zero =>
    intro l hl
    cases l with
    | nil => simp [chunkGo]
    | cons a l => simp at hl
  | succ fuel ih =>
    intro l hl
    cases l with
    | nil => simp [chunkGo]
    | cons a l =>
      have hdrop : ((a :: l).drop bs).length ≤ fuel := by
        simp only [List.length_drop, List.length_cons]
        simp only [List.length_cons] at hl
        omega
      obtain ⟨ih1, ih2⟩ := ih ((a :: l).drop bs) hdrop
      constructor
      · simp [chunkGo, ih1]
      · intro b hb
        simp only [chunkGo, List.mem_cons] at hb
        rcases hb with hb | hb
        · rw [hb]
          simp only [List.length_take]
          omega
        · exact ih2 b hb

/-- Per-batch output has one entry per destination of the batch, given
that successful API responses have one element per requested
destination. -/
theorem processBatch_length (api : List (ℚ × ℚ) → Except Unit (List DMElement))
    (hapi : ∀ batch es, api batch = .ok es → es.length = batch.length)
    (batch : List (ℚ × ℚ)) :
    (processBatch api batch).length = batch.length := by
  unfold processBatch
  cases hc : api batch with
  | error e => simp
  | ok es => simp [hapi batch es hc]

/-- `mapM` over `Option` succeeds with a same-length list when every
component is `some`. -/
theorem mapM_option_length {ι β : Type} (l : List ι) (f : ι → Option β)
    (h : ∀ i ∈ l, (f i).isSome = true) :
    ∃ out, l.mapM f = some out ∧ out.length = l.length := by
  induction l with
  | nil => exact ⟨[], rfl, rfl⟩
  | cons a l ih =>
    have ha : (f a).isSome = true := h a (by simp)
    obtain ⟨b, hb⟩ := Option.isSome_iff_exists.mp ha
    obtain ⟨out, hout, hlen⟩ := ih (fun i hi => h i (by simp [hi]))
    refine ⟨b :: out, ?_, by simp [hlen]⟩
    rw [List.mapM_cons, hb, hout]
    rfl

/-- C9: each per-mode query returns exactly one entry per destination,
requests go out in batches of at most 25 destinations that cover the
destination list in order, a failed batch call contributes the "N/A"
marker for each of its destinations, a non-"OK" element contributes "N/A"
for its item, and the combined walk/transit/drive list has exactly one
entry per destination. (Successful upstream responses are assumed to
carry one element per requested destination, per the distance-matrix API
contract.) -/
theorem travel_times_batching
    (api : String → List (ℚ × ℚ) → Except Unit (List DMElement))
    (hapi : ∀ mode batch es, api mode batch = .ok es → es.length = batch.length)
    (destinations : List (ℚ × ℚ)) :
    (∀ mode, (get_travel_times_for_mode (api mode) destinations).length
        = destinations.length) ∧
    (∀ b ∈ pyBatches 25 destinations, b.length ≤ 25) ∧
    ((pyBatches 25 destinations).flatten = destinations) ∧
    (∀ mode b, api mode b = .error () →
        processBatch (api mode) b = b.map (fun _ => "N/A")) ∧
    (∀ mode b es, api mode b = .ok es →
        processBatch (api mode) b
          = es.map (fun e => if e.status = "OK" then e.durationText else "N/A")) ∧
    (∃ out, get_all_travel_times api destinations = some out ∧
        out.length = destinations.length) := by
  obtain ⟨hflat0, hle0⟩ :=
    chunkGo_spec 25 (by omega) destinations.length destinations le_rfl
  have hflat : (pyBatches 25 destinations).flatten = destinations := hflat0
  have hle : ∀ b ∈ pyBatches 25 destinations, b.length ≤ 25 := hle0
  have hmode : ∀ mode, (get_travel_times_for_mode (api mode) destinations).length
      = destinations.length := by
    intro mode
    unfold get_travel_times_for_mode
    have hlen : ∀ L : List (List (ℚ × ℚ)),
        ((L.map (processBatch (api mode))).flatten).length = L.flatten.length := by
      intro L
      induction L with
      | nil => rfl
      | cons b L ih => simp [processBatch_length (api mode) (hapi mode) b, ih]
    rw [hlen (pyBatches 25 destinations), hflat]
  refine ⟨hmode, hle, hflat, ?_, ?_, ?_⟩
  · intro mode b hb
    unfold processBatch
    rw [hb]
  · intro mode b es hb
    unfold processBatch
    rw [hb]
  · unfold get_all_travel_times
    by_cases hdest : destinations.isEmpty = true
    · refine ⟨[], by simp [hdest], ?_⟩
      rw [List.isEmpty_iff] at hdest
      simp [hdest]
    · simp only [hdest, if_false]
      obtain ⟨out, hout, hlen⟩ := mapM_option_length (List.range destinations.length)
        (fun i => do
          let w ← (get_travel_times_for_mode (api "walking") destinations).get? i
          let t ← (get_travel_times_for_mode (api "transit") destinations).get? i
          let dr ← (get_travel_times_for_mode (api "driving") destinations).get? i
          pure (⟨w, t, dr⟩ : TravelTimes))
        (by
          intro i hi
          have hi' : i < destinations.length := List.mem_range.mp hi
          have hw := List.getElem?_eq_getElem
            (show i < (get_travel_times_for_mode (api "walking") destinations).length by
              rw [hmode "walking"]; exact hi')
          have ht := List.getElem?_eq_getElem
            (show i < (get_travel_times_for_mode (api "transit") destinations).length by
              rw [hmode "transit"]; exact hi')
          have hd := List.getElem?_eq_getElem
            (show i < (get_travel_times_for_mode (api "driving") destinations).length by
              rw [hmode "driving"]; exact hi')
          simp [List.get?_eq_getElem?, hw, ht, hd])
      exact ⟨out, hout, by rw [hlen, List.length_range]⟩

/-- An API oracle that always succeeds with one "OK" element per
destination. -/
def apiOK : String → List (ℚ × ℚ) → Except Unit (List DMElement) :=
  fun _ batch => .ok (batch.map (fun _ => ⟨"OK", "5 mins"⟩))

/-- Two concrete destinations. -/
def wDest : List (ℚ × ℚ) := [(0, 0), (1, 0)]

/-- Witness for C9 at two destinations under the always-OK oracle. -/
theorem travel_times_batching_witness :
    (∀ mode, (get_travel_times_for_mode (apiOK mode) wDest).length = wDest.length) ∧
    (∀ b ∈ pyBatches 25 wDest, b.length ≤ 25) ∧
    ((pyBatches 25 wDest).flatten = wDest) ∧
    (∀ mode b, apiOK mode b = .error () →
        processBatch (apiOK mode) b = b.map (fun _ => "N/A")) ∧
    (∀ mode b es, apiOK mode b = .ok es →
        processBatch (apiOK mode) b
          = es.map (fun e => if e.status = "OK" then e.durationText else "N/A")) ∧
    (∃ out, get_all_travel_times apiOK wDest = some out ∧ out.length = wDest.length) :=
  travel_times_batching apiOK
    (by
      intro mode batch es h
      simp only [apiOK, Except.ok.injEq] at h
      rw [← h]
      simp)
    wDest

/- ----------------------------------------------------------------
src/app.py : index() travel-time annotation (lines 239-246)
---------------------------------------------------------------- -/

/-- The annotation loop of `index()` (lines 239-246): only the first
`travel_limit = min(20, len(results))` results receive `walk_time` and
`drive_time` keys from the travel-time list (which, per the flow, has one
entry per queried destination, i.e. `travel_limit` entries); later results
are left untouched. -/
def annotate_travel_times (results : List Result) (travel_times : List TravelTimes) :
    List Result :=
  let travel_limit := min 20 results.length
  (List.zipWith (fun r t => { r with walk_time := some t.walk, drive_time := some t.drive })
      (results.take travel_limit) travel_times) ++ results.drop travel_limit

/-- C10: after annotation, the `walking_distance` statistic counts walkable
results only among the first `min(20, n)` entries — it equals the count
over that prefix and is bounded by `min(20, n)`, so a result ranked 21st
or later is never counted, whatever its walk time would have been. -/
theorem walking_distance_capped (results : List Result) (tts : List TravelTimes)
    (hnil : results ≠ [])
    (hlen : tts.length = min 20 results.length)
    (hfresh : ∀ r ∈ results, r.walk_time = none) :
    ∃ w : ℤ,
      (calculate_stats (annotate_travel_times results tts)).lookup "walking_distance"
        = some w ∧
      w = (((annotate_travel_times results tts).take (min 20 results.length)).countP
            walkCounted : ℕ) ∧
      w ≤ min 20 results.length := by
  have hlim : min 20 results.length ≤ results.length := min_le_right _ _
  have htake : (results.take (min 20 results.length)).length = min 20 results.length := by
    rw [List.length_take]
    omega
  have hzlen : (List.zipWith
      (fun r t => { r with walk_time := some t.walk, drive_time := some t.drive })
      (results.take (min 20 results.length)) tts).length = min 20 results.length := by
    rw [List.length_zipWith, htake, hlen]
    omega
  have hannlen : (annotate_travel_times results tts).length = results.length := by
    unfold annotate_travel_times
    rw [List.length_append, hzlen, List.length_drop]
    omega
  have hann_ne : annotate_travel_times results tts ≠ [] := by
    intro habs
    have : (annotate_travel_times results tts).length = 0 := by rw [habs]; rfl
    rw [hannlen] at this
    exact hnil (List.length_eq_zero.mp this)
  have htake_eq : (annotate_travel_times results tts).take (min 20 results.length)
      = List.zipWith
          (fun r t => { r with walk_time := some t.walk, drive_time := some t.drive })
          (results.take (min 20 results.length)) tts := by
    unfold annotate_travel_times
    exact List.take_left' hzlen
  have hdrop_zero : (results.drop (min 20 results.length)).countP walkCounted = 0 := by
    rw [List.countP_eq_zero]
    intro r hr
    have hmem : r ∈ results := List.mem_of_mem_drop hr
    have := hfresh r hmem
    unfold walkCounted
    rw [this]
    simp [parse_walk_time_opt]
  have hcount : (annotate_travel_times results tts).countP walkCounted
      = ((annotate_travel_times results tts).take (min 20 results.length)).countP
          walkCounted := by
    conv_lhs => rw [show annotate_travel_times results tts
      = (annotate_travel_times results tts).take (min 20 results.length)
          ++ results.drop (min 20 results.length) by
        rw [htake_eq]; rfl]
    rw [List.countP_append, hdrop_zero]
    omega
  refine ⟨((annotate_travel_times results tts).countP walkCounted : ℕ), ?_, ?_, ?_⟩
  · simp [calculate_stats, hann_ne, List.lookup]
  · rw [hcount]
  · have hb : ((annotate_travel_times results tts).take (min 20 results.length)).countP
        walkCounted ≤ min 20 results.length := by
      calc ((annotate_travel_times results tts).take (min 20 results.length)).countP
            walkCounted
          ≤ ((annotate_travel_times results tts).take (min 20 results.length)).length :=
            List.countP_le_length _
        _ = min 20 results.length := by rw [htake_eq, hzlen]
    rw [hcount]
    exact_mod_cast hb

/-- Two fresh (un-annotated) results. -/
def wResults : List Result := [sampleResult, { sampleResult with loc_id := 2 }]

/-- Travel times for the two results: one walkable, one not. -/
def wTts : List TravelTimes :=
  [⟨"5 mins", "10 mins", "3 mins"⟩, ⟨"1 hour", "2 hours", "30 mins"⟩]

/-- Witness for C10 at two results with their travel annotations. -/
theorem walking_distance_capped_witness :
    ∃ w : ℤ,
      (calculate_stats (annotate_travel_times wResults wTts)).lookup "walking_distance"
        = some w ∧
      w = (((annotate_travel_times wResults wTts).take (min 20 wResults.length)).countP
            walkCounted : ℕ) ∧
      w ≤ min 20 wResults.length :=
  walking_distance_capped wResults wTts (by decide) (by decide) (by decide)
